import Mathlib

/-!
Verification of the response-normalization and validation pipeline of
`testdata_ai` (files `testdata_ai/generator.py`, `testdata_ai/contexts.py`,
`testdata_ai/prompts.py`).

The Python code is shallowly embedded: JSON values become the inductive
`Json`, Python dicts become ordered association lists (Python dicts keep
insertion order), Python exceptions become explicit `Option`/`Except`
error channels, and the logging calls of `generate` become an explicit
list of `LogEvent`s.  Machine-specific aspects (float representation,
unicode classes beyond ASCII) are modelled with `Rat` and ASCII
whitespace; none of the verified claims depend on them.
-/

/-- JSON-compatible Python values, as produced by `json.loads`.
Objects are ordered key/value lists, mirroring Python's insertion-ordered
`dict`.  Numbers are modelled as rationals (Python's int/float distinction
is not needed by any verified property). -/
inductive Json where
  | null : Json
  | bool (b : Bool) : Json
  | num (q : Rat) : Json
  | str (s : String) : Json
  | arr (elems : List Json) : Json
  | obj (entries : List (String × Json)) : Json

/-- The backtick character, written via its code point. -/
def backtick : Char := Char.ofNat 96

/-- ASCII whitespace as recognised by Python's `str.strip` and the regex
class `\s` (for the ASCII texts this pipeline handles). -/
def isPyWs (c : Char) : Bool :=
  c == ' ' || c == '\t' || c == '\n' || c == '\r' || c == '\x0b' || c == '\x0c'

/-- Python `str.strip()` on a character list: drop leading and trailing
whitespace. -/
def pyStrip (cs : List Char) : List Char :=
  ((cs.dropWhile isPyWs).reverse.dropWhile isPyWs).reverse

/-- Embedding of the opening-fence part of `_MARKDOWN_FENCE_RE`
(`(?:```[^\n]*\n)?`): if the text starts with three backticks and a
newline occurs later, the whole first line (fence marker plus optional
language tag) is removed; otherwise the text is unchanged. -/
def dropOpenFence (cs : List Char) : List Char :=
  if cs.take 3 = [backtick, backtick, backtick] ∧ '\n' ∈ cs then
    (cs.dropWhile (fun c => c != '\n')).drop 1
  else cs

/-- Does this suffix match the closing-fence part `(?:```\s*)?$` of
`_MARKDOWN_FENCE_RE`: three backticks followed only by whitespace? -/
def isClosingFence (cs : List Char) : Bool :=
  cs.take 3 = [backtick, backtick, backtick] ∧ (cs.drop 3).all isPyWs

/-- Embedding of the lazy group `(.*?)(?:```\s*)?$`: the matched group is
the shortest prefix whose complementing suffix is empty or a closing
fence, i.e. everything before the first closing fence (or the whole text
when none exists). -/
def cutClosingFence : List Char → List Char
  | [] => []
  | c :: rest =>
    if isClosingFence (c :: rest) then []
    else c :: cutClosingFence rest

/-- Embedding of `_strip_markdown_fences` (generator.py:177-185): strip,
remove an opening fence line if present, cut a trailing closing fence,
and strip the extracted group again. -/
def strip_markdown_fences (text : String) : String :=
  ⟨pyStrip (cutClosingFence (dropOpenFence (pyStrip text.data)))⟩

/-- Python string slicing `s[:n]` (by code points). -/
def strTake (s : String) (n : Nat) : String := ⟨s.data.take n⟩

example : strip_markdown_fences "```json\n\x7b\"a\": 1\x7d\n```" = "\x7b\"a\": 1\x7d" := by rfl
example : strip_markdown_fences "```JSON\n\x7b\"a\": 1\x7d\n```" = "\x7b\"a\": 1\x7d" := by rfl
example : strip_markdown_fences "```\n[1, 2, 3]\n```" = "[1, 2, 3]" := by rfl
example : strip_markdown_fences "```json\n\x7b\"x\": 1\x7d\n```  \n" = "\x7b\"x\": 1\x7d" := by rfl
example : strip_markdown_fences "```json\n\x7b\"a\": 1\x7d" = "\x7b\"a\": 1\x7d" := by rfl
example : strip_markdown_fences "[1, 2, 3]\n```" = "[1, 2, 3]" := by rfl
example : strip_markdown_fences "" = "" := by rfl
example : strip_markdown_fences "   \n  " = "" := by rfl
example : strip_markdown_fences "\x7b\"data\": [1, 2, 3]\x7d" = "\x7b\"data\": [1, 2, 3]\x7d" := by rfl

/-- JSON whitespace accepted between tokens by `json.loads`. -/
def isJsonWs (c : Char) : Bool :=
  c == ' ' || c == '\t' || c == '\n' || c == '\r'

/-- Numeric value of a list of decimal digits. -/
def digitsToNat (ds : List Char) : Nat :=
  ds.foldl (fun n c => 10 * n + (c.toNat - 48)) 0

/-- Hex digit value, if any. -/
def hexVal (c : Char) : Option Nat :=
  if '0' ≤ c ∧ c ≤ '9' then some (c.toNat - 48)
  else if 'a' ≤ c ∧ c ≤ 'f' then some (c.toNat - 87)
  else if 'A' ≤ c ∧ c ≤ 'F' then some (c.toNat - 55)
  else none

/-- Parse the body of a JSON string literal (after the opening quote),
mirroring Python's strict `json` scanner: standard escapes, `\uXXXX`,
and a hard error on raw control characters. -/
def parseJsonString (fuel : Nat) (cs : List Char) (acc : List Char) :
    Except String (String × List Char) :=
  match fuel with
  | 0 => .error "Unterminated string starting at"
  | fuel + 1 =>
    match cs with
    | [] => .error "Unterminated string starting at"
    | '"' :: rest => .ok (⟨acc.reverse⟩, rest)
    | '\\' :: rest =>
      match rest with
      | [] => .error "Unterminated string starting at"
      | e :: rest' =>
        if e = '"' then parseJsonString fuel rest' ('"' :: acc)
        else if e = '\\' then parseJsonString fuel rest' ('\\' :: acc)
        else if e = '/' then parseJsonString fuel rest' ('/' :: acc)
        else if e = 'b' then parseJsonString fuel rest' ('\x08' :: acc)
        else if e = 'f' then parseJsonString fuel rest' ('\x0c' :: acc)
        else if e = 'n' then parseJsonString fuel rest' ('\n' :: acc)
        else if e = 'r' then parseJsonString fuel rest' ('\r' :: acc)
        else if e = 't' then parseJsonString fuel rest' ('\t' :: acc)
        else if e = 'u' then
          match rest' with
          | h1 :: h2 :: h3 :: h4 :: rest'' =>
            match hexVal h1, hexVal h2, hexVal h3, hexVal h4 with
            | some a, some b, some c, some d =>
              parseJsonString fuel rest''
                (Char.ofNat (((a * 16 + b) * 16 + c) * 16 + d) :: acc)
            | _, _, _, _ => .error "Invalid \\uXXXX escape"
          | _ => .error "Invalid \\uXXXX escape"
        else .error "Invalid \\escape"
    | c :: rest =>
      if c.toNat < 32 then .error "Invalid control character"
      else parseJsonString fuel rest (c :: acc)

/-- Parse a JSON number at the head of the input, following the grammar
of Python's `json` scanner: `-? (0 | [1-9][0-9]*) (\.[0-9]+)? ([eE][-+]?[0-9]+)?`.
Parts that do not fit the grammar are left unconsumed. -/
def parseJsonNumber (cs : List Char) : Except String (Json × List Char) :=
  let (neg, cs1) := match cs with
    | '-' :: rest => (true, rest)
    | _ => (false, cs)
  match cs1 with
  | '0' :: rest => .ok (finish neg 0 rest)
  | c :: _ =>
    if c.isDigit then
      let ds := cs1.takeWhile Char.isDigit
      .ok (finish neg (digitsToNat ds) (cs1.dropWhile Char.isDigit))
    else .error "Expecting value"
  | [] => .error "Expecting value"
where
  /-- Consume the optional fraction and exponent and build the value as a
  single `mkRat` (decimal mantissa over a power of ten). -/
  finish (neg : Bool) (intPart : Nat) (rest : List Char) : Json × List Char :=
    let (frac, rest1) := match rest with
      | '.' :: d :: ds =>
        if d.isDigit then
          ((d :: ds).takeWhile Char.isDigit, (d :: ds).dropWhile Char.isDigit)
        else ([], rest)
      | _ => ([], rest)
    let (expSign, expDigits, rest2) : Bool × List Char × List Char :=
      match rest1 with
      | e :: t =>
        if e = 'e' ∨ e = 'E' then
          match t with
          | '-' :: d :: ds =>
            if d.isDigit then
              (true, (d :: ds).takeWhile Char.isDigit, (d :: ds).dropWhile Char.isDigit)
            else (false, [], rest1)
          | '+' :: d :: ds =>
            if d.isDigit then
              (false, (d :: ds).takeWhile Char.isDigit, (d :: ds).dropWhile Char.isDigit)
            else (false, [], rest1)
          | d :: ds =>
            if d.isDigit then
              (false, (d :: ds).takeWhile Char.isDigit, (d :: ds).dropWhile Char.isDigit)
            else (false, [], rest1)
          | [] => (false, [], rest1)
        else (false, [], rest1)
      | [] => (false, [], rest1)
    let digitsAll : Nat := intPart * 10 ^ frac.length + digitsToNat frac
    let m : Int := if neg then -(digitsAll : Int) else (digitsAll : Int)
    let e : Int :=
      (if expSign then -(digitsToNat expDigits : Int) else (digitsToNat expDigits : Int))
        - (frac.length : Int)
    let value : Rat :=
      if 0 ≤ e then mkRat (m * ((10 ^ e.toNat : Nat) : Int)) 1
      else mkRat m (10 ^ (-e).toNat)
    (Json.num value, rest2)

/-- Python `dict` insertion on an ordered association list: an existing
key keeps its position and gets the new value, a new key is appended
(this is how `json.loads` treats duplicate object keys — last one wins). -/
def dictInsert (kvs : List (String × Json)) (k : String) (v : Json) :
    List (String × Json) :=
  match kvs with
  | [] => [(k, v)]
  | (k', v') :: rest =>
    if k' = k then (k', v) :: rest else (k', v') :: dictInsert rest k v

mutual

/-- Parse a JSON value at the head of the input (whitespace-tolerant),
modelling Python's `json.loads` scanner.  `fuel` only serves termination;
`jsonLoads` supplies enough for any input. -/
def parseJsonValue (fuel : Nat) (cs : List Char) :
    Except String (Json × List Char) :=
  match fuel with
  | 0 => .error "Expecting value"
  | fuel + 1 =>
    match cs.dropWhile isJsonWs with
    | [] => .error "Expecting value"
    | 'n' :: 'u' :: 'l' :: 'l' :: rest => .ok (Json.null, rest)
    | 't' :: 'r' :: 'u' :: 'e' :: rest => .ok (Json.bool true, rest)
    | 'f' :: 'a' :: 'l' :: 's' :: 'e' :: rest => .ok (Json.bool false, rest)
    | '"' :: rest =>
      match parseJsonString fuel rest [] with
      | .error e => .error e
      | .ok (s, rest') => .ok (Json.str s, rest')
    | '[' :: rest =>
      match (rest.dropWhile isJsonWs) with
      | ']' :: rest' => .ok (Json.arr [], rest')
      | _ => parseJsonArrayItems fuel rest []
    | '{' :: rest =>
      match (rest.dropWhile isJsonWs) with
      | '}' :: rest' => .ok (Json.obj [], rest')
      | _ => parseJsonObjectItems fuel rest []
    | cs' => parseJsonNumber cs'

/-- Parse the comma-separated items of a non-empty JSON array, plus the
closing bracket. -/
def parseJsonArrayItems (fuel : Nat) (cs : List Char) (acc : List Json) :
    Except String (Json × List Char) :=
  match fuel with
  | 0 => .error "Expecting value"
  | fuel + 1 =>
    match parseJsonValue fuel cs with
    | .error e => .error e
    | .ok (v, rest) =>
      match rest.dropWhile isJsonWs with
      | ']' :: rest' => .ok (Json.arr (acc ++ [v]), rest')
      | ',' :: rest' => parseJsonArrayItems fuel rest' (acc ++ [v])
      | _ => .error "Expecting ',' delimiter"

/-- Parse the comma-separated `key: value` pairs of a non-empty JSON
object, plus the closing brace. -/
def parseJsonObjectItems (fuel : Nat) (cs : List Char)
    (acc : List (String × Json)) : Except String (Json × List Char) :=
  match fuel with
  | 0 => .error "Expecting value"
  | fuel + 1 =>
    match cs.dropWhile isJsonWs with
    | '"' :: rest =>
      match parseJsonString fuel rest [] with
      | .error e => .error e
      | .ok (k, rest') =>
        match rest'.dropWhile isJsonWs with
        | ':' :: rest'' =>
          match parseJsonValue fuel rest'' with
          | .error e => .error e
          | .ok (v, rest3) =>
            match rest3.dropWhile isJsonWs with
            | '}' :: rest4 => .ok (Json.obj (dictInsert acc k v), rest4)
            | ',' :: rest4 => parseJsonObjectItems fuel rest4 (dictInsert acc k v)
            | _ => .error "Expecting ',' delimiter"
        | _ => .error "Expecting ':' delimiter"
    | _ => .error "Expecting property name enclosed in double quotes"

end

/-- Embedding of Python's `json.loads`: parse one value, then require the
remaining input to be whitespace only (else `Extra data`). -/
def jsonLoads (s : String) : Except String Json :=
  match parseJsonValue (2 * s.data.length + 2) s.data with
  | .error e => .error e
  | .ok (v, rest) =>
    if (rest.dropWhile isJsonWs).isEmpty then .ok v else .error "Extra data"

example : jsonLoads "null" = .ok Json.null := by rfl
example : jsonLoads " [1, 2] " = .ok (Json.arr [Json.num (mkRat 1 1), Json.num (mkRat 2 1)]) := by rfl
example : jsonLoads "\x7b\"a\": -1.5e2\x7d" = .ok (Json.obj [("a", Json.num (mkRat (-150) 1))]) := by rfl
example : jsonLoads "\"hello\"" = .ok (Json.str "hello") := by rfl
example : jsonLoads "not json at all" = .error "Expecting value" := by rfl
example : jsonLoads "[1" = .error "Expecting ',' delimiter" := by rfl
example : jsonLoads "1 1" = .error "Extra data" := by rfl
example : jsonLoads "\x7b\"a\": 1, \"a\": 2\x7d" = .ok (Json.obj [("a", Json.num (mkRat 2 1))]) := by rfl

/-- Integer sample value (Python `int`), as a normalised rational. -/
def Json.int (n : Int) : Json := Json.num (mkRat n 1)

/-- Decimal sample value (Python `float` literal `m / 10^scale`). -/
def Json.dec (m : Int) (scale : Nat) : Json := Json.num (mkRat m (10 ^ scale))

/-- Embedding of the dataclass `ContextSchema` (contexts.py:22-46).
`sample` is an ordered mapping, like the Python dict literal. -/
structure ContextSchema where
  description : String
  sample : List (String × Json)
  prompt_hints : List String
  category : String := "general"

/-- Derived accessor `ContextSchema.fields` (contexts.py:35-38): the
required field names are the top-level keys of `sample`, in order. -/
def ContextSchema.fields (s : ContextSchema) : List String :=
  s.sample.map Prod.fst

/-- Python's substring test `needle in hay` on character lists. -/
def containsSub (needle : List Char) : List Char → Bool
  | [] => needle.isEmpty
  | c :: rest => needle.isPrefixOf (c :: rest) || containsSub needle rest

/-- Python's `f in record` for a field name and a JSON-decoded value:
key lookup for dicts, substring test for strings, element equality for
lists, and a `TypeError` (`none`) for numbers, booleans and `None`,
which are not containers.  This mirrors what `f in record` does when
`record` came out of `json.loads`. -/
def pyContains (f : String) : Json → Option Bool
  | .obj kvs => some (kvs.any (fun kv => kv.1 == f))
  | .str s => some (containsSub f.data s.data)
  | .arr xs =>
    some (xs.any (fun x => match x with | .str s => s == f | _ => false))
  | _ => none

/-- Embedding of `ContextSchema.validate_record` (contexts.py:40-42):
`all(f in record for f in self.fields)`, short-circuiting at the first
missing field; `none` models the `TypeError` Python raises when
`record` is not a container. -/
def validate_record (schema : ContextSchema) (record : Json) : Option Bool :=
  go schema.fields
where
  go : List String → Option Bool
    | [] => some true
    | f :: fs => do
      let b ← pyContains f record
      if b then go fs else some false

/-- Embedding of `ContextSchema.missing_fields` (contexts.py:44-46):
`[f for f in self.fields if f not in record]`, evaluating the membership
test for every field. -/
def missing_fields (schema : ContextSchema) (record : Json) :
    Option (List String) :=
  go schema.fields
where
  go : List String → Option (List String)
    | [] => some []
    | f :: fs => do
      let b ← pyContains f record
      let rest ← go fs
      if b then some rest else some (f :: rest)

/-- One entry of the list returned by `validate_generated_data`:
`{"record_index": i, "missing_fields": [...]}`. -/
structure Issue where
  record_index : Nat
  missing_fields : List String
deriving DecidableEq, Repr

/-- The record-by-record loop of `validate_generated_data`
(contexts.py:465-469): for each record, run `validate_record`; when it
is false, report the missing fields at that index.  `none` models a
propagating `TypeError`. -/
def validateIssuesFrom (schema : ContextSchema) :
    Nat → List Json → Option (List Issue)
  | _, [] => some []
  | i, r :: rs => do
    let ok ← validate_record schema r
    if ok then validateIssuesFrom schema (i + 1) rs
    else do
      let ms ← missing_fields schema r
      let rest ← validateIssuesFrom schema (i + 1) rs
      some (⟨i, ms⟩ :: rest)

/-- Validation of a record list against a schema, starting at index 0. -/
def validateIssues (schema : ContextSchema) (records : List Json) :
    Option (List Issue) :=
  validateIssuesFrom schema 0 records

/-- Registry entry `"ecommerce_customer"` (contexts.py:50-80). -/
def ecommerce_customer_schema : ContextSchema where
  description := "e-commerce customer profiles"
  category := "ecommerce"
  sample := [
    ("name", Json.str "Aisha Patel"),
    ("email", Json.str "aisha.patel.2024@gmail.com"),
    ("age", Json.int 28),
    ("location", Json.obj [
      ("city", Json.str "Mumbai"),
      ("country", Json.str "India"),
      ("timezone", Json.str "Asia/Kolkata")]),
    ("shopping_behavior", Json.obj [
      ("frequency", Json.str "weekly"),
      ("avg_order_value", Json.str "$45-80"),
      ("preferred_categories", Json.arr [Json.str "electronics", Json.str "books"]),
      ("device", Json.str "mobile"),
      ("payment_method", Json.str "upi")]),
    ("joined_date", Json.str "2023-04-15"),
    ("loyalty_tier", Json.str "silver")]
  prompt_hints := [
    "Diverse names from different cultures and countries",
    "Age range: 18-75 years old",
    "Realistic email addresses (avoid test@test.com patterns)",
    "Valid location data (city, country, timezone)",
    "Shopping behavior should match demographics (e.g., students shop differently than seniors)",
    "Payment methods should match location (e.g., UPI in India, credit cards in USA)"]

/-- Registry entry `"banking_user"` (contexts.py:82-105). -/
def banking_user_schema : ContextSchema where
  description := "banking customer profiles"
  category := "finance"
  sample := [
    ("name", Json.str "Marcus Johnson"),
    ("email", Json.str "mjohnson87@outlook.com"),
    ("age", Json.int 42),
    ("account_type", Json.str "checking"),
    ("balance", Json.dec 1542050 2),
    ("monthly_income", Json.int 5200),
    ("credit_score", Json.int 740),
    ("branch", Json.str "Austin-Downtown"),
    ("account_opened", Json.str "2021-11-03")]
  prompt_hints := [
    "Diverse names from different cultures",
    "Age range: 18-80 years old",
    "Realistic email addresses",
    "Valid account types (checking, savings, business, investment)",
    "Realistic balance ranges based on account type and customer demographics",
    "Credit scores: 300-850 range",
    "Monthly income should correlate with age and account balance"]

/-- Registry entry `"saas_trial"` (contexts.py:107-131). -/
def saas_trial_schema : ContextSchema where
  description := "SaaS trial user profiles"
  category := "saas"
  sample := [
    ("name", Json.str "Sarah Chen"),
    ("email", Json.str "sarah.chen@techstartup.io"),
    ("company", Json.str "TechStartup Inc"),
    ("role", Json.str "CTO"),
    ("plan", Json.str "business"),
    ("signup_date", Json.str "2026-02-01"),
    ("trial_expires", Json.str "2026-03-01"),
    ("usage_stats", Json.obj [
      ("logins", Json.int 12),
      ("features_used", Json.arr
        [Json.str "api", Json.str "analytics", Json.str "integrations"])])]
  prompt_hints := [
    "Business-focused names and emails (company domains)",
    "Age range: 25-60 years old (professional users)",
    "Realistic company names and roles",
    "Trial plan types: free, professional, business, enterprise",
    "Signup dates within last 3 months",
    "Trial expiry dates (typically 14-30 days from signup)"]

/-- Registry entry `"healthcare_patient"` (contexts.py:133-158). -/
def healthcare_patient_schema : ContextSchema where
  description := "healthcare patient records"
  category := "healthcare"
  sample := [
    ("patient_id", Json.str "PT-2024-00847"),
    ("name", Json.str "Elena Rodriguez"),
    ("date_of_birth", Json.str "1985-06-12"),
    ("gender", Json.str "female"),
    ("blood_type", Json.str "A+"),
    ("primary_diagnosis", Json.str "Type 2 Diabetes"),
    ("medications", Json.arr [Json.str "Metformin 500mg", Json.str "Lisinopril 10mg"]),
    ("allergies", Json.arr [Json.str "Penicillin"]),
    ("insurance_provider", Json.str "Blue Cross Blue Shield"),
    ("last_visit", Json.str "2026-01-20"),
    ("attending_physician", Json.str "Dr. Kwame Asante")]
  prompt_hints := [
    "Diverse patient names from different cultures",
    "Realistic date of birth (age range 0-100)",
    "Valid blood types: A+, A-, B+, B-, AB+, AB-, O+, O-",
    "Common real-world diagnoses (diabetes, hypertension, asthma, etc.)",
    "Medications should match the diagnosis",
    "Allergies should be common drug/food allergies",
    "Use realistic insurance provider names"]

/-- Registry entry `"education_student"` (contexts.py:160-185). -/
def education_student_schema : ContextSchema where
  description := "university student profiles"
  category := "education"
  sample := [
    ("student_id", Json.str "STU-2023-1042"),
    ("name", Json.str "Jordan Williams"),
    ("email", Json.str "jwilliams@university.edu"),
    ("age", Json.int 20),
    ("major", Json.str "Computer Science"),
    ("minor", Json.str "Mathematics"),
    ("year", Json.str "junior"),
    ("gpa", Json.dec 345 2),
    ("enrollment_status", Json.str "full-time"),
    ("courses", Json.arr [
      Json.str "CS301 Algorithms",
      Json.str "MATH240 Linear Algebra",
      Json.str "CS350 Databases"]),
    ("advisor", Json.str "Dr. Priya Sharma")]
  prompt_hints := [
    "Diverse student names from different backgrounds",
    "Age range: 17-30 for undergrads, 22-45 for graduate students",
    "University email addresses (.edu domain)",
    "Realistic majors and minors that pair logically",
    "Year: freshman, sophomore, junior, senior, or graduate",
    "GPA range: 0.0-4.0, normally distributed around 3.0",
    "Course codes should follow a realistic format (dept + number)"]

/-- Registry entry `"b2b_lead"` (contexts.py:187-215). -/
def b2b_lead_schema : ContextSchema where
  description := "B2B sales lead profiles"
  category := "b2b"
  sample := [
    ("lead_id", Json.str "LD-2026-0293"),
    ("contact_name", Json.str "David Nguyen"),
    ("email", Json.str "d.nguyen@acmelogistics.com"),
    ("phone", Json.str "+1-312-555-0184"),
    ("company", Json.str "Acme Logistics"),
    ("industry", Json.str "Supply Chain & Logistics"),
    ("company_size", Json.str "200-500"),
    ("job_title", Json.str "VP of Operations"),
    ("lead_source", Json.str "webinar"),
    ("lead_score", Json.int 72),
    ("deal_value", Json.int 48000),
    ("stage", Json.str "qualified"),
    ("notes", Json.str "Interested in warehouse automation. Follow up after Q1 budget review.")]
  prompt_hints := [
    "Professional names with company email domains",
    "Realistic company names across industries",
    "Industries: tech, healthcare, logistics, finance, manufacturing, retail, etc.",
    "Company size brackets: 1-10, 11-50, 51-200, 200-500, 500-1000, 1000+",
    "Job titles should reflect decision-makers (VP, Director, Head of, Manager)",
    "Lead sources: webinar, referral, inbound, cold outreach, trade show, content download",
    "Lead scores: 0-100, higher means more qualified",
    "Stages: new, contacted, qualified, proposal, negotiation, closed-won, closed-lost"]

/-- Registry entry `"hr_employee"` (contexts.py:217-243). -/
def hr_employee_schema : ContextSchema where
  description := "HR employee records"
  category := "hr"
  sample := [
    ("employee_id", Json.str "EMP-004231"),
    ("name", Json.str "Fatima Al-Rashid"),
    ("email", Json.str "f.alrashid@globecorp.com"),
    ("department", Json.str "Engineering"),
    ("job_title", Json.str "Senior Software Engineer"),
    ("hire_date", Json.str "2022-03-14"),
    ("salary", Json.int 125000),
    ("employment_type", Json.str "full-time"),
    ("manager", Json.str "Tomoko Hayashi"),
    ("location", Json.str "San Francisco, CA"),
    ("performance_rating", Json.int 4)]
  prompt_hints := [
    "Diverse employee names reflecting a global workforce",
    "Company email addresses matching a consistent domain",
    "Departments: Engineering, Sales, Marketing, HR, Finance, Operations, Legal, Product",
    "Job titles should match department and seniority level",
    "Hire dates within the last 0-20 years",
    "Salary should correlate with role seniority and department",
    "Employment types: full-time, part-time, contract, intern",
    "Performance ratings: 1-5 scale, normally distributed around 3"]

/-- Registry entry `"real_estate_listing"` (contexts.py:245-272). -/
def real_estate_listing_schema : ContextSchema where
  description := "real estate property listings"
  category := "real_estate"
  sample := [
    ("listing_id", Json.str "MLS-782451"),
    ("address", Json.str "1247 Oak Street, Portland, OR 97205"),
    ("property_type", Json.str "single-family"),
    ("bedrooms", Json.int 3),
    ("bathrooms", Json.int 2),
    ("sqft", Json.int 1850),
    ("year_built", Json.int 1998),
    ("list_price", Json.int 485000),
    ("status", Json.str "active"),
    ("days_on_market", Json.int 14),
    ("agent", Json.str "Rebecca Torres"),
    ("features", Json.arr [
      Json.str "hardwood floors",
      Json.str "updated kitchen",
      Json.str "fenced yard"])]
  prompt_hints := [
    "Realistic US addresses with valid city/state/zip combinations",
    "Property types: single-family, condo, townhouse, multi-family, land",
    "Bedrooms: 1-6, bathrooms: 1-4 (should correlate with sqft)",
    "Square footage should match property type (condos smaller, houses larger)",
    "Year built: 1900-2026",
    "List prices should match location and property characteristics",
    "Status: active, pending, sold, withdrawn",
    "Features should be realistic and match the property type"]

/-- Registry entry `"iot_device"` (contexts.py:274-302). -/
def iot_device_schema : ContextSchema where
  description := "IoT device telemetry records"
  category := "iot"
  sample := [
    ("device_id", Json.str "IOT-TH-00412"),
    ("device_type", Json.str "temperature_humidity_sensor"),
    ("manufacturer", Json.str "SenseTech"),
    ("firmware_version", Json.str "2.4.1"),
    ("location", Json.str "Warehouse B - Aisle 3"),
    ("status", Json.str "online"),
    ("battery_level", Json.int 87),
    ("last_reading", Json.obj [
      ("temperature_c", Json.dec 224 1),
      ("humidity_pct", Json.dec 581 1),
      ("timestamp", Json.str "2026-02-15T08:32:00Z")]),
    ("alert_threshold", Json.obj [
      ("temp_max", Json.dec 300 1),
      ("humidity_max", Json.dec 700 1)]),
    ("installed_date", Json.str "2025-06-10")]
  prompt_hints := [
    "Device types: temperature_humidity_sensor, motion_detector, smart_meter, air_quality, pressure_gauge",
    "Realistic manufacturer names for industrial IoT",
    "Firmware versions in semver format (major.minor.patch)",
    "Status: online, offline, maintenance, error",
    "Battery levels: 0-100, some devices should be low",
    "Sensor readings should be physically plausible for the device type",
    "Timestamps in ISO 8601 format with timezone"]

/-- Registry entry `"social_media_profile"` (contexts.py:304-329). -/
def social_media_profile_schema : ContextSchema where
  description := "social media user profiles"
  category := "social_media"
  sample := [
    ("username", Json.str "travel_with_miko"),
    ("display_name", Json.str "Miko Tanaka"),
    ("bio", Json.str "Exploring the world one city at a time. Tokyo -> NYC -> ???"),
    ("followers", Json.int 12400),
    ("following", Json.int 843),
    ("posts", Json.int 327),
    ("verified", Json.bool false),
    ("joined", Json.str "2023-08-15"),
    ("category", Json.str "travel"),
    ("engagement_rate", Json.dec 32 1),
    ("top_hashtags", Json.arr [
      Json.str "#wanderlust",
      Json.str "#streetphotography",
      Json.str "#foodie"])]
  prompt_hints := [
    "Creative usernames that feel organic (underscores, numbers, abbreviations)",
    "Bios should feel authentic and match the category",
    "Follower counts: realistic distribution (most users < 5k, some 5k-100k, rare > 100k)",
    "Following count usually lower than or comparable to followers for larger accounts",
    "Categories: travel, food, fitness, tech, fashion, art, music, gaming, lifestyle",
    "Engagement rates: 1-8% is typical, higher for smaller accounts",
    "Hashtags should match the profile category"]

/-- Registry entry `"travel_booking"` (contexts.py:331-360). -/
def travel_booking_schema : ContextSchema where
  description := "travel booking records"
  category := "travel"
  sample := [
    ("booking_id", Json.str "BK-2026-18743"),
    ("passenger_name", Json.str "Carlos Mendez"),
    ("email", Json.str "carlos.mendez@email.com"),
    ("trip_type", Json.str "round-trip"),
    ("origin", Json.str "LAX"),
    ("destination", Json.str "NRT"),
    ("departure_date", Json.str "2026-04-10"),
    ("return_date", Json.str "2026-04-24"),
    ("cabin_class", Json.str "economy"),
    ("total_price", Json.dec 124500 2),
    ("currency", Json.str "USD"),
    ("travelers", Json.int 2),
    ("status", Json.str "confirmed"),
    ("add_ons", Json.arr [Json.str "extra_baggage", Json.str "travel_insurance"])]
  prompt_hints := [
    "Diverse passenger names from different nationalities",
    "Trip types: one-way, round-trip, multi-city",
    "Use real IATA airport codes (LAX, JFK, LHR, NRT, CDG, etc.)",
    "Departure dates within the next 6 months",
    "Return dates after departure (duration 2-30 days)",
    "Cabin classes: economy, premium_economy, business, first",
    "Prices should match route distance and cabin class",
    "Status: confirmed, pending, cancelled, checked-in"]

/-- Registry entry `"restaurant_order"` (contexts.py:362-394). -/
def restaurant_order_schema : ContextSchema where
  description := "restaurant / food delivery orders"
  category := "food"
  sample := [
    ("order_id", Json.str "ORD-20260215-0042"),
    ("customer_name", Json.str "Lisa Park"),
    ("restaurant", Json.str "Nonna's Trattoria"),
    ("cuisine", Json.str "Italian"),
    ("items", Json.arr [
      Json.obj [("name", Json.str "Margherita Pizza"), ("qty", Json.int 1),
                ("price", Json.dec 1450 2)],
      Json.obj [("name", Json.str "Caesar Salad"), ("qty", Json.int 1),
                ("price", Json.dec 900 2)],
      Json.obj [("name", Json.str "Tiramisu"), ("qty", Json.int 2),
                ("price", Json.dec 750 2)]]),
    ("subtotal", Json.dec 3850 2),
    ("delivery_fee", Json.dec 399 2),
    ("tip", Json.dec 600 2),
    ("total", Json.dec 4849 2),
    ("payment_method", Json.str "credit_card"),
    ("order_type", Json.str "delivery"),
    ("status", Json.str "delivered"),
    ("ordered_at", Json.str "2026-02-15T19:22:00Z")]
  prompt_hints := [
    "Diverse customer names",
    "Creative but realistic restaurant names matching the cuisine",
    "Cuisines: Italian, Japanese, Mexican, Indian, Chinese, Thai, American, Mediterranean, Korean",
    "Menu items should match the cuisine and restaurant style",
    "Item prices: appetizers $5-12, mains $10-25, desserts $6-12, drinks $3-8",
    "Subtotal must equal sum of (qty * price) for all items",
    "Order types: delivery, pickup, dine-in",
    "Status: placed, preparing, out_for_delivery, delivered, cancelled"]

/-- Registry entry `"logistics_shipment"` (contexts.py:396-423). -/
def logistics_shipment_schema : ContextSchema where
  description := "logistics shipment tracking records"
  category := "logistics"
  sample := [
    ("tracking_number", Json.str "TRK-9827461053"),
    ("carrier", Json.str "FastFreight Global"),
    ("origin", Json.obj [("city", Json.str "Shenzhen"), ("country", Json.str "China")]),
    ("destination", Json.obj [("city", Json.str "Chicago"),
                              ("country", Json.str "United States")]),
    ("ship_date", Json.str "2026-01-28"),
    ("estimated_delivery", Json.str "2026-02-18"),
    ("actual_delivery", Json.null),
    ("weight_kg", Json.dec 2450 1),
    ("dimensions_cm", Json.obj [("length", Json.int 120), ("width", Json.int 80),
                                ("height", Json.int 90)]),
    ("contents", Json.str "Consumer Electronics"),
    ("status", Json.str "in_transit"),
    ("last_checkpoint", Json.str "Port of Long Beach, CA")]
  prompt_hints := [
    "Tracking numbers: alphanumeric, 10-15 characters",
    "Realistic carrier names (mix of real-sounding freight companies)",
    "International routes with realistic origin/destination pairs",
    "Ship dates within the last 30 days",
    "Delivery estimates: 2-5 days domestic, 7-30 days international",
    "actual_delivery is null for in-transit shipments",
    "Weight and dimensions should match the contents category",
    "Status: pending_pickup, picked_up, in_transit, customs_hold, out_for_delivery, delivered, exception"]

/-- The fixed registry `CONTEXTS` (contexts.py:49-424), in source order. -/
def CONTEXTS : List (String × ContextSchema) := [
  ("ecommerce_customer", ecommerce_customer_schema),
  ("banking_user", banking_user_schema),
  ("saas_trial", saas_trial_schema),
  ("healthcare_patient", healthcare_patient_schema),
  ("education_student", education_student_schema),
  ("b2b_lead", b2b_lead_schema),
  ("hr_employee", hr_employee_schema),
  ("real_estate_listing", real_estate_listing_schema),
  ("iot_device", iot_device_schema),
  ("social_media_profile", social_media_profile_schema),
  ("travel_booking", travel_booking_schema),
  ("restaurant_order", restaurant_order_schema),
  ("logistics_shipment", logistics_shipment_schema)]

/-- Error channel of the generation pipeline.  Each constructor stands
for one exception the Python code can raise out of
`TestDataGenerator.generate`. -/
inductive GenError where
  /-- `ValueError("count must be >= 1, ...")` (generator.py:115-116). -/
  | invalidCount (msg : String)
  /-- `ValueError("Unknown context: ...")` (contexts.py:433-437). -/
  | unknownContext (msg : String)
  /-- `ValueError("AI response is not valid JSON: ...")` (generator.py:135). -/
  | invalidJson (msg : String)
  /-- Modelled from the spec: `SchemaValidationError` "carrying the full
  issue list".  The class `ValidationError` is imported from
  `testdata_ai.contexts` (generator.py:19) and raised with the invalid
  list (generator.py:161), but its definition is absent from
  `contexts.py`; its payload here follows the spec and the expectations
  in `tests/test_contexts.py:182-211`. -/
  | validation (invalid_records : List Issue)
  /-- The `TypeError` that `validate_generated_data` lets escape when a
  record is not a container (see `pyContains`). -/
  | typeError
deriving DecidableEq

/-- Python's `str(list(CONTEXTS.keys()))`, used in the unknown-context
error message. -/
def availableContextsMsg : String :=
  "['" ++ String.intercalate "', '" (CONTEXTS.map Prod.fst) ++ "']"

/-- Embedding of `get_context_schema` (contexts.py:427-438). -/
def get_context_schema (context : String) : Except GenError ContextSchema :=
  match CONTEXTS.find? (fun p => p.1 == context) with
  | some p => .ok p.2
  | none =>
    .error (.unknownContext
      ("Unknown context: '" ++ context ++ "'. Available contexts: "
        ++ availableContextsMsg))

/-- Embedding of `validate_generated_data` (contexts.py:451-469): look
up the schema (propagating the unknown-context error), then collect the
per-record issues; `GenError.typeError` models the `TypeError` escaping
from `f in record` on non-container records. -/
def validate_generated_data (context : String) (records : List Json) :
    Except GenError (List Issue) :=
  match get_context_schema context with
  | .error e => .error e
  | .ok schema =>
    match validateIssues schema records with
    | none => .error .typeError
    | some issues => .ok issues

/-- A run of `n` spaces. -/
def spaces (n : Nat) : String := ⟨List.replicate n ' '⟩

/-- Python's decimal rendering of a sample number inside
`json.dumps`: integers print bare, terminating decimals print with a
shortest fractional part.  (Python's int/float distinction and float
repr corner cases are approximated; the prompt text is opaque to every
verified claim.) -/
def ratDecimalString (q : Rat) : String :=
  if q.den = 1 then toString q.num
  else
    match (List.range 30).find? (fun k => q.den ∣ 10 ^ k) with
    | some k =>
      let m := q.num.natAbs * (10 ^ k / q.den)
      let fracStr := toString (m % 10 ^ k)
      (if q.num < 0 then "-" else "") ++ toString (m / 10 ^ k) ++ "."
        ++ spaces 0 ++ ⟨List.replicate (k - fracStr.length) '0'⟩ ++ fracStr
    | none => toString q.num ++ "/" ++ toString q.den

/-- JSON string escaping as done by `json.dumps` (ASCII mode). -/
def escChar (c : Char) : List Char :=
  if c = '"' then ['\\', '"']
  else if c = '\\' then ['\\', '\\']
  else if c = '\n' then ['\\', 'n']
  else if c = '\t' then ['\\', 't']
  else if c = '\r' then ['\\', 'r']
  else if c.toNat < 32 ∨ c.toNat > 126 then
    '\\' :: 'u' :: (toString c.toNat).data
  else [c]

mutual

/-- Embedding of `json.dumps(value, indent=2)` as used by `get_prompt`
(prompts.py:31), at a given indentation level. -/
def jsonDumpVal : Json → Nat → String
  | .null, _ => "null"
  | .bool b, _ => if b then "true" else "false"
  | .num q, _ => ratDecimalString q
  | .str s, _ => "\"" ++ ⟨(s.data.map escChar).flatten⟩ ++ "\""
  | .arr [], _ => "[]"
  | .arr (x :: xs), lvl =>
    "[\n" ++ jsonDumpItems (x :: xs) (lvl + 1) ++ "\n" ++ spaces (2 * lvl) ++ "]"
  | .obj [], _ => "\x7b\x7d"
  | .obj (kv :: kvs), lvl =>
    "\x7b\n" ++ jsonDumpEntries (kv :: kvs) (lvl + 1) ++ "\n"
      ++ spaces (2 * lvl) ++ "\x7d"

/-- Comma-and-newline separated array items at one indentation level. -/
def jsonDumpItems : List Json → Nat → String
  | [], _ => ""
  | [x], lvl => spaces (2 * lvl) ++ jsonDumpVal x lvl
  | x :: y :: xs, lvl =>
    spaces (2 * lvl) ++ jsonDumpVal x lvl ++ ",\n" ++ jsonDumpItems (y :: xs) lvl

/-- Comma-and-newline separated object entries at one indentation level. -/
def jsonDumpEntries : List (String × Json) → Nat → String
  | [], _ => ""
  | [(k, v)], lvl =>
    spaces (2 * lvl) ++ "\"" ++ k ++ "\": " ++ jsonDumpVal v lvl
  | (k, v) :: e :: es, lvl =>
    spaces (2 * lvl) ++ "\"" ++ k ++ "\": " ++ jsonDumpVal v lvl ++ ",\n"
      ++ jsonDumpEntries (e :: es) lvl

end

/-- Embedding of `get_prompt` (prompts.py:15-44): look up the schema
(raising the unknown-context `ValueError`), then build the prompt from
the count, description, hints and the serialized sample. -/
def get_prompt (context : String) (count : Int) : Except GenError String :=
  match get_context_schema context with
  | .error e => .error e
  | .ok schema =>
    let hints := String.intercalate "\n"
      (schema.prompt_hints.map (fun h => "- " ++ h))
    let sample_json := jsonDumpVal (Json.obj schema.sample) 0
    .ok ("Generate exactly " ++ toString count ++ " realistic "
      ++ schema.description
      ++ ".\n\nReturn a JSON object with a \"data\" key containing an array of exactly "
      ++ toString count
      ++ " objects. Example: \x7b\"data\": [...]\x7d\n\nRequirements for realistic data:\n"
      ++ hints
      ++ "\n\nEach object in the array must follow this structure:\n"
      ++ sample_json ++ "\n")

/-- The `for value in data.values(): if isinstance(value, list): break`
loop of `generate` (generator.py:140-143): the first array-valued entry
of the object, in insertion order. -/
def firstListValue : List (String × Json) → Option (List Json)
  | [] => none
  | (_, Json.arr xs) :: _ => some xs
  | _ :: rest => firstListValue rest

/-- Shape normalization of the parsed response (generator.py:139-149):
a dict yields its first array value, or wraps itself; an array is used
as-is; anything else is wrapped as a one-element list. -/
def normalizeShape : Json → List Json
  | .obj kvs =>
    match firstListValue kvs with
    | some xs => xs
    | none => [Json.obj kvs]
  | .arr xs => xs
  | .null => [Json.null]
  | .bool b => [Json.bool b]
  | .num q => [Json.num q]
  | .str s => [Json.str s]

/-- The observable logging calls made by `generate`, in order. -/
inductive LogEvent where
  /-- `logger.warning("count=... may exceed token limits ...")` (generator.py:117-121). -/
  | warnLargeCount (count : Int)
  /-- `logger.info("Generating ... records for context ...")` (generator.py:123). -/
  | infoGenerating (count : Int) (context : String)
  /-- `logger.debug("Sending prompt to ...")` (generator.py:126). -/
  | debugSendingPrompt
  /-- `logger.error("Failed to parse AI response as JSON: ...")` (generator.py:133). -/
  | errorParseFailed (err : String)
  /-- `logger.debug(f"Response preview: {response[:200]!r}")` (generator.py:134). -/
  | debugPreview (preview : String)
  /-- `logger.info("Successfully generated ... records")` (generator.py:151). -/
  | infoGenerated (n : Nat)
  /-- `logger.warning("Requested ... records but received ...")` (generator.py:153-156). -/
  | warnCountMismatch (requested : Int) (got : Nat)
deriving DecidableEq

/-- Observable outcome of one `generate` call: its return value or
exception, the log events it emitted, and how many times it invoked the
provider's `generate` (the sole provider call site is generator.py:128). -/
structure GenOutcome where
  result : Except GenError (List Json)
  logs : List LogEvent
  providerCalls : Nat

/-- The body of `TestDataGenerator.generate` after the count checks
(generator.py:123-163): build the prompt, call the provider, strip
fences, parse JSON, normalize the shape, warn on count mismatch, and
optionally validate.  The provider is a pure function from prompt text
to raw response text. -/
def generateBody (provider : String → String) (context : String)
    (count : Int) (validate : Bool) : GenOutcome :=
  match get_prompt context count with
  | .error e =>
    { result := .error e
      logs := [LogEvent.infoGenerating count context]
      providerCalls := 0 }
  | .ok prompt =>
    let response := strip_markdown_fences (provider prompt)
    match jsonLoads response with
    | .error e =>
      { result := .error (.invalidJson ("AI response is not valid JSON: " ++ e))
        logs := [LogEvent.infoGenerating count context,
                 LogEvent.debugSendingPrompt,
                 LogEvent.errorParseFailed e,
                 LogEvent.debugPreview (strTake response 200)]
        providerCalls := 1 }
    | .ok data =>
      let records := normalizeShape data
      let logs := [LogEvent.infoGenerating count context,
                   LogEvent.debugSendingPrompt,
                   LogEvent.infoGenerated records.length]
        ++ (if (records.length : Int) ≠ count then
              [LogEvent.warnCountMismatch count records.length]
            else [])
      if validate then
        match validate_generated_data context records with
        | .error e => { result := .error e, logs := logs, providerCalls := 1 }
        | .ok invalid =>
          if invalid.isEmpty then
            { result := .ok records, logs := logs, providerCalls := 1 }
          else
            { result := .error (.validation invalid)
              logs := logs
              providerCalls := 1 }
      else
        { result := .ok records, logs := logs, providerCalls := 1 }

/-- Embedding of `TestDataGenerator.generate` (generator.py:95-163):
the `count < 1` guard raises before anything else happens, the
`count > 50` guard only emits a warning, and the rest is
`generateBody`. -/
def generate (provider : String → String) (context : String) (count : Int)
    (validate : Bool) : GenOutcome :=
  if count < 1 then
    { result := .error (.invalidCount ("count must be >= 1, got " ++ toString count))
      logs := []
      providerCalls := 0 }
  else
    let body := generateBody provider context count validate
    { result := body.result
      logs := (if count > 50 then [LogEvent.warnLargeCount count] else [])
        ++ body.logs
      providerCalls := body.providerCalls }

/-! Helper lemmas about the shape-normalization scan. -/

lemma firstListValue_cons_not_arr (q : String × Json) (rest : List (String × Json))
    (h : ∀ ys, q.2 ≠ Json.arr ys) :
    firstListValue (q :: rest) = firstListValue rest := by
  obtain ⟨k, v⟩ := q
  cases v with
  | arr xs => exact absurd rfl (h xs)
  | null => rfl
  | bool b => rfl
  | num n => rfl
  | str s => rfl
  | obj kvs => rfl

lemma firstListValue_append_arr (pre : List (String × Json)) (k : String)
    (xs : List Json) (post : List (String × Json))
    (h : ∀ q ∈ pre, ∀ ys, q.2 ≠ Json.arr ys) :
    firstListValue (pre ++ (k, Json.arr xs) :: post) = some xs := by
  induction pre with
  | nil => rfl
  | cons q pre ih =>
    rw [List.cons_append,
      firstListValue_cons_not_arr q _ (h q (List.mem_cons_self q pre))]
    exact ih fun p hp => h p (List.mem_cons_of_mem q hp)

lemma firstListValue_eq_none (kvs : List (String × Json))
    (h : ∀ q ∈ kvs, ∀ ys, q.2 ≠ Json.arr ys) :
    firstListValue kvs = none := by
  induction kvs with
  | nil => rfl
  | cons q rest ih =>
    rw [firstListValue_cons_not_arr q rest (h q (List.mem_cons_self q rest))]
    exact ih fun p hp => h p (List.mem_cons_of_mem q hp)

/-- Claim C1: shape normalization is total and follows exactly four
branches — an array is taken as-is; an object yields its first
array-valued entry (in key order); an object without array values
becomes the one-element list of itself; any other value becomes the
one-element list of itself. -/
theorem normalizeShape_four_branches (v : Json) :
    (∀ xs, v = Json.arr xs → normalizeShape v = xs)
    ∧ (∀ pre k xs post, v = Json.obj (pre ++ (k, Json.arr xs) :: post) →
        (∀ q ∈ pre, ∀ ys, q.2 ≠ Json.arr ys) →
        normalizeShape v = xs)
    ∧ (∀ kvs, v = Json.obj kvs →
        (∀ q ∈ kvs, ∀ ys, q.2 ≠ Json.arr ys) →
        normalizeShape v = [v])
    ∧ ((∀ xs, v ≠ Json.arr xs) → (∀ kvs, v ≠ Json.obj kvs) →
        normalizeShape v = [v]) := by
  refine ⟨?_, ?_, ?_, ?_⟩
  · rintro xs rfl; rfl
  · rintro pre k xs post rfl h
    show (match firstListValue (pre ++ (k, Json.arr xs) :: post) with
      | some ys => ys
      | none => [Json.obj (pre ++ (k, Json.arr xs) :: post)]) = xs
    rw [firstListValue_append_arr pre k xs post h]
  · rintro kvs rfl h
    show (match firstListValue kvs with
      | some ys => ys
      | none => [Json.obj kvs]) = [Json.obj kvs]
    rw [firstListValue_eq_none kvs h]
  · intro h1 h2
    cases v with
    | arr xs => exact absurd rfl (h1 xs)
    | obj kvs => exact absurd rfl (h2 kvs)
    | null => rfl
    | bool b => rfl
    | num q => rfl
    | str s => rfl

/-- Witness for C1: the four branches at concrete parsed values — a
bare array, a wrapped array under an arbitrary key (skipping non-array
values), a single object with no array entry, and a bare scalar. -/
theorem normalizeShape_four_branches_witness :
    normalizeShape (Json.arr [Json.int 1, Json.int 2]) = [Json.int 1, Json.int 2]
    ∧ normalizeShape (Json.obj [("a", Json.int 1),
        ("data", Json.arr [Json.str "x"]), ("extra", Json.arr [])])
      = [Json.str "x"]
    ∧ normalizeShape (Json.obj [("name", Json.str "Solo")])
      = [Json.obj [("name", Json.str "Solo")]]
    ∧ normalizeShape (Json.str "hello") = [Json.str "hello"] :=
  ⟨(normalizeShape_four_branches _).1 _ rfl,
   (normalizeShape_four_branches _).2.1 [("a", Json.int 1)] "data" [Json.str "x"]
     [("extra", Json.arr [])] rfl
     (fun q hq ys => by
       rcases List.mem_singleton.mp hq with rfl
       exact fun h => Json.noConfusion h),
   (normalizeShape_four_branches _).2.2.1 _ rfl
     (fun q hq ys => by
       rcases List.mem_singleton.mp hq with rfl
       exact fun h => Json.noConfusion h),
   (normalizeShape_four_branches _).2.2.2
     (fun xs h => Json.noConfusion h) (fun kvs h => Json.noConfusion h)⟩

/-- Claim C3 (code bug): at the failing input — a bare number record —
the validator does not report an issue listing every required field;
the membership test `f in record` raises `TypeError` instead
(`42` is not a container), contradicting `tests/test_contexts.py:77-82`. -/
theorem validate_number_record_typeerror :
    validate_generated_data "banking_user" [Json.num (mkRat 42 1)]
      = .error GenError.typeError := by rfl

/-- Claim C4 (code bug): at the failing input — a `None` record — the
validator raises `TypeError` (modelled as the `typeError` outcome)
rather than returning an issue list, contradicting the spec sentence
"this function never raises for malformed records" and
`tests/test_contexts.py:70-82`. -/
theorem validator_raises_on_null_record :
    validate_generated_data "ecommerce_customer" [Json.null]
      = .error GenError.typeError := by rfl

/-- Claim C6: for `count < 1` the call fails with the `InvalidCount`
error and the provider is never invoked. -/
theorem generate_invalid_count_no_provider_call (provider : String → String)
    (context : String) (vflag : Bool) (count : Int) (h : count < 1) :
    (generate provider context count vflag).result
      = .error (.invalidCount ("count must be >= 1, got " ++ toString count))
    ∧ (generate provider context count vflag).providerCalls = 0 := by
  unfold generate
  rw [if_pos h]
  exact ⟨rfl, rfl⟩

/-- Witness for C6 at `count = 0`. -/
theorem generate_invalid_count_no_provider_call_witness :
    (generate (fun _ => "[]") "banking_user" 0 true).result
      = .error (.invalidCount "count must be >= 1, got 0")
    ∧ (generate (fun _ => "[]") "banking_user" 0 true).providerCalls = 0 :=
  generate_invalid_count_no_provider_call _ _ _ _ (by decide)

/-! Helper lemmas classifying the errors each stage can produce. -/

lemma get_context_schema_error_shape (context : String) (e : GenError)
    (h : get_context_schema context = .error e) :
    ∃ msg, e = GenError.unknownContext msg := by
  unfold get_context_schema at h
  cases hf : CONTEXTS.find? (fun p => p.1 == context) with
  | some p => rw [hf] at h; exact Except.noConfusion h
  | none =>
    rw [hf] at h
    injection h with h'
    exact ⟨_, h'.symm⟩

lemma get_prompt_error_shape (context : String) (count : Int) (e : GenError)
    (h : get_prompt context count = .error e) :
    ∃ msg, e = GenError.unknownContext msg := by
  unfold get_prompt at h
  cases hg : get_context_schema context with
  | error e' =>
    rw [hg] at h
    injection h with h'
    exact h' ▸ get_context_schema_error_shape context e' hg
  | ok s => rw [hg] at h; exact Except.noConfusion h

lemma validate_generated_data_error_shape (context : String)
    (records : List Json) (e : GenError)
    (h : validate_generated_data context records = .error e) :
    e = GenError.typeError ∨ ∃ msg, e = GenError.unknownContext msg := by
  unfold validate_generated_data at h
  cases hg : get_context_schema context with
  | error e' =>
    rw [hg] at h
    injection h with h'
    exact Or.inr (h' ▸ get_context_schema_error_shape context e' hg)
  | ok schema =>
    rw [hg] at h
    dsimp only at h
    cases hv : validateIssues schema records with
    | none => rw [hv] at h; injection h with h'; exact Or.inl h'.symm
    | some issues => rw [hv] at h; exact Except.noConfusion h

lemma generateBody_result_ne_invalidCount (provider : String → String)
    (context : String) (count : Int) (vflag : Bool) (m : String) :
    (generateBody provider context count vflag).result
      ≠ .error (GenError.invalidCount m) := by
  cases hp : get_prompt context count with
  | error e =>
    obtain ⟨msg, rfl⟩ := get_prompt_error_shape context count e hp
    simp [generateBody, hp]
  | ok prompt =>
    cases hj : jsonLoads (strip_markdown_fences (provider prompt)) with
    | error e => simp [generateBody, hp, hj]
    | ok data =>
      cases vflag with
      | false => simp [generateBody, hp, hj]
      | true =>
        cases hv : validate_generated_data context (normalizeShape data) with
        | error e =>
          rcases validate_generated_data_error_shape _ _ _ hv with rfl | ⟨msg, rfl⟩
            <;> simp [generateBody, hp, hj, hv]
        | ok invalid =>
          cases hinv : invalid.isEmpty <;>
            simp [generateBody, hp, hj, hv, hinv]

/-- Claim C10: `generate` imposes no upper bound on `count` — above 50
it runs exactly the same pipeline with a token-limit warning prepended,
valid counts up to 50 run the pipeline with no extra log, and the count
value itself never produces a failure when `count ≥ 1`. -/
theorem generate_no_upper_count_bound (provider : String → String)
    (context : String) (vflag : Bool) (count : Int) (h : 50 < count) :
    (generate provider context count vflag).result
      = (generateBody provider context count vflag).result
    ∧ (generate provider context count vflag).logs
      = LogEvent.warnLargeCount count
        :: (generateBody provider context count vflag).logs
    ∧ (∀ c : Int, 1 ≤ c → c ≤ 50 →
        generate provider context c vflag = generateBody provider context c vflag)
    ∧ ∀ m, (generate provider context count vflag).result
        ≠ .error (GenError.invalidCount m) := by
  have hn : ¬count < 1 := by omega
  refine ⟨?_, ?_, ?_, ?_⟩
  · simp [generate, hn]
  · simp [generate, hn, h]
  · intro c h1 h2
    have hc1 : ¬c < 1 := by omega
    have hc2 : ¬c > 50 := by omega
    simp [generate, hc1, hc2]
  · intro m
    have : (generate provider context count vflag).result
        = (generateBody provider context count vflag).result := by
      simp [generate, hn]
    rw [this]
    exact generateBody_result_ne_invalidCount provider context count vflag m

/-- Witness for C10 at `count = 51`: the warning is prepended to the
unchanged pipeline log. -/
theorem generate_no_upper_count_bound_witness :
    (generate (fun _ => "[]") "banking_user" 51 true).logs
      = LogEvent.warnLargeCount 51
        :: (generateBody (fun _ => "[]") "banking_user" 51 true).logs :=
  (generate_no_upper_count_bound (fun _ => "[]") "banking_user" true 51
    (by decide)).2.1

/-- Claim C2 (ValidationError modelled from the spec): with validation
enabled, when the validator returns at least one issue the call fails
with the validation error carrying exactly that issue list. -/
theorem generate_validation_failure (provider : String → String)
    (context : String) (count : Int) (p : String) (v : Json)
    (issues : List Issue)
    (hc : 1 ≤ count)
    (hp : get_prompt context count = .ok p)
    (hj : jsonLoads (strip_markdown_fences (provider p)) = .ok v)
    (hv : validate_generated_data context (normalizeShape v) = .ok issues)
    (hne : issues ≠ []) :
    (generate provider context count true).result
      = .error (GenError.validation issues) := by
  have hn : ¬count < 1 := by omega
  have hne' : issues.isEmpty = false := by
    cases issues with
    | nil => exact absurd rfl hne
    | cons a l => rfl
  simp [generate, generateBody, hn, hp, hj, hv, hne']

/-- Witness for C2: a provider answering one incomplete banking record
for a one-record request makes the call fail with the full issue list. -/
theorem generate_validation_failure_witness :
    (generate (fun _ => "\x7b\"data\": [\x7b\"name\": \"Test\"\x7d]\x7d")
      "banking_user" 1 true).result
      = .error (GenError.validation
          [⟨0, ["email", "age", "account_type", "balance", "monthly_income",
                "credit_score", "branch", "account_opened"]⟩]) :=
  generate_validation_failure _ "banking_user" 1 _ _ _
    (by decide) rfl rfl rfl (by decide)

/-- Claim C5 (amended): when the fence-stripped response text is not
valid JSON the call fails with the `InvalidResponseFormat` error
(`ValueError`) carrying the underlying parse error, a prefix of the
offending text capped at 200 characters is emitted as a debug log
event (not inside the error payload), and no other outcome is
possible. -/
theorem invalid_json_error_and_preview_log (provider : String → String)
    (context : String) (count : Int) (vflag : Bool) (p e : String)
    (hc : 1 ≤ count)
    (hp : get_prompt context count = .ok p)
    (hj : jsonLoads (strip_markdown_fences (provider p)) = .error e) :
    (generate provider context count vflag).result
      = .error (GenError.invalidJson ("AI response is not valid JSON: " ++ e))
    ∧ LogEvent.debugPreview (strTake (strip_markdown_fences (provider p)) 200)
      ∈ (generate provider context count vflag).logs
    ∧ (strTake (strip_markdown_fences (provider p)) 200).length ≤ 200 := by
  have hn : ¬count < 1 := by omega
  refine ⟨?_, ?_, ?_⟩
  · simp [generate, generateBody, hn, hp, hj]
  · simp [generate, generateBody, hn, hp, hj]
  · show (((strip_markdown_fences (provider p)).data.take 200).length : Nat) ≤ 200
    rw [List.length_take]
    exact min_le_left _ _

/-- Witness for C5's amended statement at the malformed text
`not json at all`. -/
theorem invalid_json_error_and_preview_log_witness :
    (generate (fun _ => "not json at all") "banking_user" 1 true).result
      = .error (GenError.invalidJson
          "AI response is not valid JSON: Expecting value")
    ∧ LogEvent.debugPreview "not json at all"
      ∈ (generate (fun _ => "not json at all") "banking_user" 1 true).logs
    ∧ (strTake "not json at all" 200).length ≤ 200 :=
  invalid_json_error_and_preview_log (fun _ => "not json at all")
    "banking_user" 1 true _ "Expecting value" (by decide) rfl rfl

/-- Counterexample for C5 as stated: at the malformed text
`not json at all` the raised error's payload is only the parse-error
message; the capped 200-character prefix of the offending text is not
contained in it (it goes to the debug log instead, see the amended
theorem). -/
theorem invalid_json_error_lacks_preview :
    (generate (fun _ => "not json at all") "banking_user" 1 true).result
      = .error (GenError.invalidJson
          "AI response is not valid JSON: Expecting value")
    ∧ containsSub (strTake (strip_markdown_fences "not json at all") 200).data
        "AI response is not valid JSON: Expecting value".data = false := by
  exact ⟨by rfl, by rfl⟩

/-- Claim C7: when the response parses and validates but the number of
records differs from the requested count, the call succeeds with the
actual records and emits the count-mismatch warning. -/
theorem generate_count_mismatch_warns (provider : String → String)
    (context : String) (count : Int) (p : String) (v : Json)
    (hc : 1 ≤ count)
    (hp : get_prompt context count = .ok p)
    (hj : jsonLoads (strip_markdown_fences (provider p)) = .ok v)
    (hv : validate_generated_data context (normalizeShape v) = .ok [])
    (hm : ((normalizeShape v).length : Int) ≠ count) :
    (generate provider context count true).result = .ok (normalizeShape v)
    ∧ LogEvent.warnCountMismatch count (normalizeShape v).length
      ∈ (generate provider context count true).logs := by
  have hn : ¬count < 1 := by omega
  constructor
  · simp [generate, generateBody, hn, hp, hj, hv]
  · simp [generate, generateBody, hn, hp, hj, hv, hm]

set_option maxRecDepth 8192 in
/-- Witness for C7: a provider delivering 1 well-formed banking record
for a 5-record request yields a successful length-1 result plus the
warning. -/
theorem generate_count_mismatch_warns_witness :
    (generate (fun _ => "\x7b\"data\": [\x7b\"name\": \"A\", \"email\": \"e\", \"age\": 1, \"account_type\": \"c\", \"balance\": 0, \"monthly_income\": 0, \"credit_score\": 0, \"branch\": \"b\", \"account_opened\": \"d\"\x7d]\x7d")
      "banking_user" 5 true).result
      = .ok [Json.obj [("name", Json.str "A"), ("email", Json.str "e"),
          ("age", Json.int 1), ("account_type", Json.str "c"),
          ("balance", Json.int 0), ("monthly_income", Json.int 0),
          ("credit_score", Json.int 0), ("branch", Json.str "b"),
          ("account_opened", Json.str "d")]]
    ∧ LogEvent.warnCountMismatch 5 1
      ∈ (generate (fun _ => "\x7b\"data\": [\x7b\"name\": \"A\", \"email\": \"e\", \"age\": 1, \"account_type\": \"c\", \"balance\": 0, \"monthly_income\": 0, \"credit_score\": 0, \"branch\": \"b\", \"account_opened\": \"d\"\x7d]\x7d")
        "banking_user" 5 true).logs :=
  generate_count_mismatch_warns
    (fun _ => "\x7b\"data\": [\x7b\"name\": \"A\", \"email\": \"e\", \"age\": 1, \"account_type\": \"c\", \"balance\": 0, \"monthly_income\": 0, \"credit_score\": 0, \"branch\": \"b\", \"account_opened\": \"d\"\x7d]\x7d")
    "banking_user" 5 _ _ (by decide) rfl rfl rfl (by decide)

/-- Claim C9: every built-in example record validates cleanly against
its own schema's derived required fields. -/
theorem contexts_examples_self_consistent :
    ∀ p ∈ CONTEXTS, validateIssues p.2 [Json.obj p.2.sample] = some [] := by
  intro p hp
  simp only [CONTEXTS, List.mem_cons, List.not_mem_nil, or_false] at hp
  rcases hp with rfl | rfl | rfl | rfl | rfl | rfl | rfl | rfl | rfl | rfl | rfl
    | rfl | rfl
  all_goals rfl

/-- Witness for C9 at the first registry entry. -/
theorem contexts_examples_self_consistent_witness :
    ("ecommerce_customer", ecommerce_customer_schema) ∈ CONTEXTS
    ∧ validateIssues ecommerce_customer_schema
        [Json.obj ecommerce_customer_schema.sample] = some [] :=
  ⟨List.mem_cons_self _ _,
   contexts_examples_self_consistent _ (List.mem_cons_self _ _)⟩

/-! Helper lemmas for the fence-free stripping claim. -/

lemma pyStrip_within (cs : List Char) : pyStrip cs <:+: cs := by
  unfold pyStrip
  have h2 : ((cs.dropWhile isPyWs).reverse.dropWhile isPyWs).reverse
      <+: (cs.dropWhile isPyWs).reverse.reverse :=
    List.reverse_prefix.mpr (List.dropWhile_suffix _)
  rw [List.reverse_reverse] at h2
  exact h2.isInfix.trans (List.dropWhile_suffix _).isInfix

lemma dropOpenFence_of_noFence (cs : List Char)
    (h : ¬ [backtick, backtick, backtick] <:+: cs) : dropOpenFence cs = cs := by
  unfold dropOpenFence
  rw [if_neg]
  rintro ⟨htake, -⟩
  exact h (htake ▸ (List.take_prefix 3 cs).isInfix)

lemma cutClosingFence_of_noFence (cs : List Char)
    (h : ¬ [backtick, backtick, backtick] <:+: cs) :
    cutClosingFence cs = cs := by
  induction cs with
  | nil => rfl
  | cons c rest ih =>
    unfold cutClosingFence
    rw [if_neg, ih fun hi => h (List.infix_cons hi)]
    intro hcl
    simp only [isClosingFence, decide_eq_true_eq] at hcl
    exact h (hcl.1 ▸ (List.take_prefix 3 (c :: rest)).isInfix)

lemma dropWhile_idem (p : Char → Bool) (l : List Char) :
    (l.dropWhile p).dropWhile p = l.dropWhile p := by
  induction l with
  | nil => rfl
  | cons c rest ih =>
    by_cases hc : p c
    · simp only [List.dropWhile_cons, hc, if_pos]; exact ih
    · simp [List.dropWhile_cons, hc]

lemma dropWhile_eq_self_of_front (p : Char → Bool) (l pre : List Char)
    (hl : l.dropWhile p = l) (hpre : pre <+: l) :
    pre.dropWhile p = pre := by
  cases pre with
  | nil => rfl
  | cons c t =>
    obtain ⟨s, rfl⟩ := hpre
    have hc : ¬ p c = true := by
      intro hc
      have hlen := congrArg List.length hl
      rw [List.cons_append, List.dropWhile_cons, if_pos hc] at hlen
      have hle := (List.dropWhile_sublist (l := t ++ s) p).length_le
      rw [List.length_cons] at hlen
      omega
    simp [List.dropWhile_cons, hc]

lemma pyStrip_idem (cs : List Char) : pyStrip (pyStrip cs) = pyStrip cs := by
  unfold pyStrip
  set m := cs.dropWhile isPyWs with hm
  have hml : m.dropWhile isPyWs = m := dropWhile_idem isPyWs cs
  have hpre : (m.reverse.dropWhile isPyWs).reverse <+: m := by
    have h0 : (m.reverse.dropWhile isPyWs).reverse <+: m.reverse.reverse :=
      List.reverse_prefix.mpr (List.dropWhile_suffix _)
    rwa [List.reverse_reverse] at h0
  rw [dropWhile_eq_self_of_front isPyWs m _ hml hpre, List.reverse_reverse,
    dropWhile_idem]

/-- Claim C8: stripping fences from a text containing no fence marker
(no run of three backticks) returns the text unchanged except for
trimming leading and trailing whitespace. -/
theorem strip_fences_identity_without_fences (s : String)
    (h : ¬ [backtick, backtick, backtick] <:+: s.data) :
    strip_markdown_fences s = ⟨pyStrip s.data⟩ := by
  unfold strip_markdown_fences
  have hstrip : ¬ [backtick, backtick, backtick] <:+: pyStrip s.data :=
    fun hi => h (hi.trans (pyStrip_within s.data))
  rw [dropOpenFence_of_noFence _ hstrip, cutClosingFence_of_noFence _ hstrip,
    pyStrip_idem]

/-- Witness for C8 at a fence-free text with surrounding whitespace. -/
theorem strip_fences_identity_without_fences_witness :
    ¬ [backtick, backtick, backtick] <:+: "  \x7b\"a\": 1\x7d  ".data
    ∧ strip_markdown_fences "  \x7b\"a\": 1\x7d  "
      = ⟨pyStrip "  \x7b\"a\": 1\x7d  ".data⟩ :=
  ⟨by decide, strip_fences_identity_without_fences _ (by decide)⟩
